import Mathlib

/-!
Shallow embedding of the wingman-mcp-examples repository (stock MCP tools
and the bridge discovery endpoint), together with theorems checking the
natural-language specification against it.

Sources embedded:
- `src/tools/stock_info.py` (`get_stock_info`)
- `src/tools/stock_history.py` (`get_historical_prices`)
- `src/stock-mcp/tools/stock_chart.py` (`render_stock_chart`)
- `src/stock-mcp/tools/stock_factsheet.py` (`get_factsheet`)
- `src/bridge/main.py` (`wingman_endpoint`)

External collaborators (the yfinance backend, HTTP download, the file
system) are modelled as explicit function/state parameters; prices are
modelled as rationals.
-/

/- Mathlib seals the core rational operations against unfolding; the
concrete evaluations below need them reducible again. -/
attribute [local semireducible] Rat.add Rat.sub Rat.mul Rat.inv

namespace Wingman

/-! ### Python string primitives (ASCII range, as used by the sources) -/

/-- Python `str.upper` on one character, ASCII range (tickers are ASCII). -/
def pyUpperChar (c : Char) : Char :=
  if 'a' ≤ c ∧ c ≤ 'z' then Char.ofNat (c.toNat - 32) else c

/-- Python `str.upper` (ASCII range). -/
def pyUpper (s : String) : String :=
  String.mk (s.toList.map pyUpperChar)

/-- Python `str.lower` on one character, ASCII range. -/
def pyLowerChar (c : Char) : Char :=
  if 'A' ≤ c ∧ c ≤ 'Z' then Char.ofNat (c.toNat + 32) else c

/-- Python `str.lower` (ASCII range). -/
def pyLower (s : String) : String :=
  String.mk (s.toList.map pyLowerChar)

/-- ASCII whitespace recognised by Python `str.strip` (Unicode spaces are
not relevant to the embedded sources). -/
def isPySpace (c : Char) : Bool :=
  c = ' ' || c = '\t' || c = '\n' || c = '\r' || c = '\x0b' || c = '\x0c'

/-- Python `str.strip` (ASCII whitespace). -/
def pyStrip (s : String) : String :=
  String.mk (((s.toList.dropWhile isPySpace).reverse.dropWhile isPySpace).reverse)

/-- Zero-pad a natural number to `k` digits (as `strftime` padding does). -/
def natPad (k n : Nat) : String :=
  String.mk (List.replicate (k - (Nat.repr n).length) '0') ++ Nat.repr n

/-! ### Python float formatting (`:+.2f` style) over rationals -/

/-- Python `int(...)` on a float: truncation toward zero. -/
def pyInt (q : ℚ) : ℤ := Int.tdiv q.num q.den

/-- The scaled magnitude used by `%.{prec}f` formatting: `|q| * 10 ^ prec`
rounded half to even (the rounding of Python float formatting), computed
on the numerator and denominator. -/
def pyRound (prec : Nat) (q : ℚ) : Nat :=
  let n := q.num.natAbs * 10 ^ prec
  let d := q.den
  if 2 * (n % d) < d then n / d
  else if d < 2 * (n % d) then n / d + 1
  else if n / d % 2 = 0 then n / d else n / d + 1

/-- Render a scaled magnitude with `prec` digits after the decimal point. -/
def decRepr (prec : Nat) (n : Nat) : String :=
  Nat.repr (n / 10 ^ prec) ++ "." ++ natPad prec (n % 10 ^ prec)

/-- Python `format(q, '+.{prec}f')`: an explicit sign is always emitted. -/
def pyFmtSigned (prec : Nat) (q : ℚ) : String :=
  (if q < 0 then "-" else "+") ++ decRepr prec (pyRound prec q)

/-- Python `format(q, '.{prec}f')`: a sign is emitted only when negative. -/
def pyFmt (prec : Nat) (q : ℚ) : String :=
  (if q < 0 then "-" else "") ++ decRepr prec (pyRound prec q)

/-! ### Errors and validation

All four tools annotate their `symbol` parameter with
`Field(min_length=1, max_length=10, pattern=r"^[A-Z]{1,10}$")`; the
pydantic layer of FastMCP enforces these constraints before the handler
body runs, so each handler model checks the pattern first and otherwise
returns a validation error without consulting the backend. -/

/-- Error taxonomy visible in the embedded handlers: pydantic parameter
validation failures and errors propagated from the data backend. -/
inductive ToolError where
  | invalidParameter (name reason : String)
  | upstreamFetch (msg : String)
deriving DecidableEq

/-- A heterogeneous scalar as found in `yfinance` `stock.info` values. -/
inductive Val where
  | num (q : ℚ)
  | txt (s : String)
deriving DecidableEq

/-- `[A-Z]` membership for one character. -/
def isUpperAlpha (c : Char) : Bool :=
  decide ('A' ≤ c) && decide (c ≤ 'Z')

/-- The symbol constraint `min_length=1, max_length=10` and full match of
`[A-Z]{1,10}` (the pattern is anchored by `^`/`$`). -/
def validSymbol (s : String) : Bool :=
  decide (1 ≤ s.length) && decide (s.length ≤ 10) && s.toList.all isUpperAlpha

/-- The pydantic error produced when `symbol` violates its pattern. -/
def symbolPatternError : ToolError :=
  ToolError.invalidParameter "symbol" "string should match pattern"

/-! ### get_stock_info (src/tools/stock_info.py) -/

/-- The `StockInfo` pydantic model: every field other than `symbol` is
optional with default `None`. -/
structure StockInfo where
  symbol : String
  company_name : Option Val
  current_price : Option Val
  market_cap : Option Val
  pe_ratio : Option Val
  dividend_yield : Option Val
  fifty_two_week_high : Option Val
  fifty_two_week_low : Option Val
  sector : Option Val
  industry : Option Val
  volume : Option Val
  avg_volume : Option Val
  beta : Option Val
  book_value : Option Val
  eps : Option Val
deriving DecidableEq

/-- Handler body of `get_stock_info`. The yfinance backend is the
parameter `info : ticker → field → Option Val`; `stock.info.get(k)`
is `info ticker k` (absent keys give `none`). The source builds the
ticker as `yf.Ticker(symbol.upper())` and reads the listed keys. -/
def get_stock_info (info : String → String → Option Val) (symbol : String) :
    Except ToolError StockInfo :=
  if validSymbol symbol then
    Except.ok
      { symbol := pyUpper symbol
        company_name := info (pyUpper symbol) "longName"
        current_price := info (pyUpper symbol) "currentPrice"
        market_cap := info (pyUpper symbol) "marketCap"
        pe_ratio := info (pyUpper symbol) "trailingPE"
        dividend_yield := info (pyUpper symbol) "dividendYield"
        fifty_two_week_high := info (pyUpper symbol) "fiftyTwoWeekHigh"
        fifty_two_week_low := info (pyUpper symbol) "fiftyTwoWeekLow"
        sector := info (pyUpper symbol) "sector"
        industry := info (pyUpper symbol) "industry"
        volume := info (pyUpper symbol) "volume"
        avg_volume := info (pyUpper symbol) "averageVolume"
        beta := info (pyUpper symbol) "beta"
        book_value := info (pyUpper symbol) "bookValue"
        eps := info (pyUpper symbol) "trailingEps" }
  else
    Except.error symbolPatternError

/-! ### get_historical_prices (src/tools/stock_history.py) -/

/-- A calendar date, the key type of the `bars` mapping (the source
derives it from the pandas index via `idx.date()`; the frame index is
modelled directly as a date). -/
structure Dte where
  year : Nat
  month : Nat
  day : Nat
deriving DecidableEq

/-- `idx.strftime('%Y-%m-%d')`: zero-padded ISO date rendering. -/
def Dte.fmt (d : Dte) : String :=
  natPad 4 d.year ++ "-" ++ natPad 2 d.month ++ "-" ++ natPad 2 d.day

/-- A pandas history frame as the handlers consume it: the column-name
list (for `'Adj Close' in hist.columns`) and the rows, each a date index
with its cells; `row.get(k)` is `cells k`, `none` when the column is
absent from the row. `hist.empty` is `rows = []`. -/
structure HistFrame where
  columns : List String
  rows : List (Dte × (String → Option ℚ))

/-- The keyword arguments passed to `stock.history(**yf_params)`. A key
absent from the Python dict (or passed as `None`) is `none`. `end` is a
Lean keyword, hence the field name `end_`. -/
structure YfParams where
  start : Option String
  end_ : Option String
  period : Option String
  interval : Option String
deriving DecidableEq

/-- Python string interpolation of an `Optional[str]` (`None` renders as
`"None"` inside an f-string). -/
def strOfOpt : Option String → String
  | none => "None"
  | some s => s

/-- The parameter-precedence block shared verbatim by
`get_historical_prices` (stock_history.py lines 82-94) and
`render_stock_chart` (stock_chart.py lines 47-59): if `start` or `end`
is supplied, the request carries the date range and the interval and no
period; otherwise it carries the period and the interval. The second
component is `actual_period`. -/
def histParams (period interval : String) (start end_ : Option String) :
    YfParams × String :=
  if start.isSome || end_.isSome then
    ({ start := start, end_ := end_, period := none, interval := some interval },
      "start=" ++ strOfOpt start ++ ", end=" ++ strOfOpt end_)
  else
    ({ start := none, end_ := none, period := some period, interval := some interval },
      period)

/-- The `HistoricalBar` pydantic model: every field optional, default
`None`. `open` is a Lean keyword, hence `open_`. -/
structure HistoricalBar where
  open_ : Option ℚ
  high : Option ℚ
  low : Option ℚ
  close : Option ℚ
  adj_close : Option ℚ
  volume : Option ℚ
deriving DecidableEq

/-- One loop iteration of `get_historical_prices`: build a bar from a
row with `row.get(...)`; `adj_close` is taken only when the frame has an
`'Adj Close'` column, otherwise it is `None`. -/
def barOfRow (columns : List String) (cells : String → Option ℚ) : HistoricalBar :=
  { open_ := cells "Open"
    high := cells "High"
    low := cells "Low"
    close := cells "Close"
    adj_close := if "Adj Close" ∈ columns then cells "Adj Close" else none
    volume := cells "Volume" }

/-- Python dict assignment `bars[k] = v`: overwrite in place when the key
exists, otherwise append (insertion order preserved). -/
def dictInsert (k : Dte) (v : HistoricalBar) (m : List (Dte × HistoricalBar)) :
    List (Dte × HistoricalBar) :=
  if m.any (fun p => decide (p.1 = k)) then
    m.map (fun p => if p.1 = k then (k, v) else p)
  else
    m ++ [(k, v)]

/-- The `bars` dict built by the `for idx, row in hist.iterrows()` loop
(skipped entirely when `hist.empty`; iterating zero rows is the same). -/
def HistFrame.toBars (hist : HistFrame) : List (Dte × HistoricalBar) :=
  hist.rows.foldl (fun m r => dictInsert r.1 (barOfRow hist.columns r.2) m) []

/-- The `HistoricalPrices` pydantic model. -/
structure HistoricalPrices where
  symbol : String
  resolution : String
  period : String
  bars : List (Dte × HistoricalBar)
deriving DecidableEq

/-- The schema default of the `period` parameter of
`get_historical_prices`. -/
def historyPeriodDefault : String := "1y"

/-- The schema default of the `interval` parameter of
`get_historical_prices`. -/
def historyIntervalDefault : String := "1d"

/-- Handler body of `get_historical_prices`. The yfinance backend is the
parameter `backend : ticker → params → frame`; the source calls
`yf.Ticker(symbol.upper()).history(**yf_params)`. -/
def get_historical_prices (backend : String → YfParams → HistFrame)
    (symbol period interval : String) (start end_ : Option String) :
    Except ToolError HistoricalPrices :=
  if validSymbol symbol then
    Except.ok
      { symbol := pyUpper symbol
        resolution := period
        period := (histParams period interval start end_).2
        bars := (backend (pyUpper symbol) (histParams period interval start end_).1).toBars }
  else
    Except.error symbolPatternError

/-! ### render_stock_chart (src/stock-mcp/tools/stock_chart.py) -/

/-- One element of the `chart_data` list: `row.get(field, 0)` coerced by
`float(...)` resp. `int(...)`, and the index rendered by
`idx.strftime('%Y-%m-%d')`. -/
structure ChartPoint where
  date : String
  open_ : ℚ
  high : ℚ
  low : ℚ
  close : ℚ
  volume : ℤ
deriving DecidableEq

/-- One iteration of the chart-data loop: a missing cell falls back to
the literal default `0` (`row.get('Open', 0)` etc.). -/
def chartPointOfRow (d : Dte) (cells : String → Option ℚ) : ChartPoint :=
  { date := d.fmt
    open_ := (cells "Open").getD 0
    high := (cells "High").getD 0
    low := (cells "Low").getD 0
    close := (cells "Close").getD 0
    volume := pyInt ((cells "Volume").getD 0) }

/-- The single dummy data point substituted when `chart_data` is empty
("to avoid chart errors"). -/
def dummyPoint : ChartPoint :=
  { date := "2024-01-01", open_ := 100, high := 100, low := 100, close := 100,
    volume := 0 }

/-- `chart_data` as built by lines 64-88: rows mapped best-effort, then
the dummy-point substitution when the list is empty. -/
def chartData (hist : HistFrame) : List ChartPoint :=
  let cd := hist.rows.map (fun r => chartPointOfRow r.1 r.2)
  if cd.isEmpty then [dummyPoint] else cd

/-- `chart_data[0]['close']` (chart data is never empty by construction;
the default is unreachable). -/
def firstClose (cd : List ChartPoint) : ℚ := (cd.headD dummyPoint).close

/-- `chart_data[-1]['close']` (same remark). -/
def latestClose (cd : List ChartPoint) : ℚ := (cd.getLastD dummyPoint).close

/-- The three chart-script branches selected on `chart_type.lower()`. -/
inductive ChartKind where
  | line
  | candlestick
  | area
deriving DecidableEq

/-- Branch selection of lines 97-224: `line`, `candlestick`, else area. -/
def chartKind (chart_type : String) : ChartKind :=
  if pyLower chart_type = "line" then ChartKind.line
  else if pyLower chart_type = "candlestick" then ChartKind.candlestick
  else ChartKind.area

/-- The dynamic content of the generated HTML document. The static
HTML/CSS/D3 boilerplate is fixed text; this structure records every
value substituted into the template. In the markup, `currentPriceStat`
and `changeStat` are each preceded by a literal dollar sign. -/
structure ChartDocument where
  title : String
  periodStat : String
  currentPriceStat : String
  changeStat : String
  changeClass : String
  dataPointsStat : Nat
  data : List ChartPoint
  kind : ChartKind
  uri : String
deriving DecidableEq

/-- The schema default of the `period` parameter of
`render_stock_chart`. -/
def chartPeriodDefault : String := "1mo"

/-- Handler body of `render_stock_chart`: same parameter precedence and
backend call as `get_historical_prices`, then the chart-data loop, the
price statistics of lines 90-94, and the template substitution. The
change statistic uses format specifiers `:+.2f` and `:+.1f`. -/
def render_stock_chart (backend : String → YfParams → HistFrame)
    (symbol chart_type period interval : String) (start end_ : Option String) :
    Except ToolError ChartDocument :=
  if validSymbol symbol then
    let hist := backend (pyUpper symbol) (histParams period interval start end_).1
    let cd := chartData hist
    let latest := latestClose cd
    let first := firstClose cd
    let change := latest - first
    let pct := if first ≠ 0 then (latest - first) / first * 100 else 0
    Except.ok
      { title := pyUpper symbol ++ " Chart"
        periodStat := (histParams period interval start end_).2
        currentPriceStat := pyFmt 2 latest
        changeStat := pyFmtSigned 2 change ++ " (" ++ pyFmtSigned 1 pct ++ "%)"
        changeClass := if 0 ≤ change then "positive" else "negative"
        dataPointsStat := cd.length
        data := cd
        kind := chartKind chart_type
        uri := "ui://data/chart/" ++ symbol }
  else
    Except.error symbolPatternError

/-! ### get_factsheet (src/stock-mcp/tools/stock_factsheet.py) -/

/-- The fixed document URL downloaded by `get_factsheet`, independent of
the symbol argument. -/
def pdf_url : String :=
  "https://www.adobe.com/support/products/enterprise/knowledgecenter/media/c4611_sample_explain.pdf"

/-- One base64 alphabet character (0-63). -/
def b64Char (n : Nat) : Char :=
  if n < 26 then Char.ofNat ('A'.toNat + n)
  else if n < 52 then Char.ofNat ('a'.toNat + (n - 26))
  else if n < 62 then Char.ofNat ('0'.toNat + (n - 52))
  else if n = 62 then '+'
  else '/'

/-- Standard base64: three bytes become four characters, with `=`
padding for a short final group. -/
def base64Chunks : List Nat → List Char
  | b1 :: b2 :: b3 :: rest =>
      b64Char (b1 / 4) :: b64Char (b1 % 4 * 16 + b2 / 16) ::
        b64Char (b2 % 16 * 4 + b3 / 64) :: b64Char (b3 % 64) :: base64Chunks rest
  | [b1, b2] => [b64Char (b1 / 4), b64Char (b1 % 4 * 16 + b2 / 16), b64Char (b2 % 16 * 4), '=']
  | [b1] => [b64Char (b1 / 4), b64Char (b1 % 4 * 16), '=', '=']
  | [] => []

/-- `base64.b64encode(...).decode(...)` on a byte sequence. -/
def base64Encode (bs : List Nat) : String := String.mk (base64Chunks bs)

/-- A `BlobResourceContents` value as returned by `get_factsheet`. -/
structure BlobRes where
  uri : String
  mimeType : String
  blob : String
deriving DecidableEq

/-- Handler body of `get_factsheet`. The HTTP client is the parameter
`download : url → bytes or error`; `response.raise_for_status()`
propagates an HTTP error out of the handler, modelled as
`UpstreamFetchError`. The URL downloaded is always `pdf_url`; only the
response URI interpolates the symbol. -/
def get_factsheet (download : String → Except String (List Nat)) (symbol : String) :
    Except ToolError BlobRes :=
  if validSymbol symbol then
    match download pdf_url with
    | Except.error e => Except.error (ToolError.upstreamFetch e)
    | Except.ok bytes =>
        Except.ok
          { uri := "ui://data/factsheets/" ++ symbol ++ ".pdf"
            mimeType := "application/pdf"
            blob := base64Encode bytes }
  else
    Except.error symbolPatternError

/-! ### wingman discovery endpoint (src/bridge/main.py) -/

/-- The state of the sibling `instructions.md` file at request time:
absent (`instructions_file.exists()` false), existing but failing to
read (the swallowed `except` branch), or readable with some content. -/
inductive FileState where
  | absent
  | unreadable
  | readable (content : String)
deriving DecidableEq

/-- The JSON document returned by the `/.well-known/wingman` endpoint. -/
structure WingmanDoc where
  name : String
  instructions : Option String
deriving DecidableEq

/-- Handler body of `wingman_endpoint`: start from `{name: "wingman"}`;
when the file exists and reads successfully, strip the content and add
the `instructions` field only when the stripped content is nonempty; a
missing or unreadable file is silently skipped. The handler always
returns a document, never an error. -/
def wingman_endpoint (instructions_file : FileState) : WingmanDoc :=
  match instructions_file with
  | FileState.readable c =>
      if pyStrip c = "" then { name := "wingman", instructions := none }
      else { name := "wingman", instructions := some (pyStrip c) }
  | _ => { name := "wingman", instructions := none }

/-! ### Result projections used by the theorems -/

/-- Project the embedded chart data out of a handler result. -/
def docData : Except ToolError ChartDocument → Option (List ChartPoint)
  | Except.ok d => some d.data
  | Except.error _ => none

/-- Project the rendered change statistic out of a handler result. -/
def docChange : Except ToolError ChartDocument → Option String
  | Except.ok d => some d.changeStat
  | Except.error _ => none

/-- The everywhere-empty history frame (a window with no rows). -/
def emptyFrame : HistFrame := { columns := [], rows := [] }

/-! ### Helper lemmas -/

/-- Unfolding of `validSymbol` into its three schema constraints. -/
theorem validSymbol_iff (s : String) :
    validSymbol s = true ↔
      1 ≤ s.length ∧ s.length ≤ 10 ∧ ∀ c ∈ s.toList, isUpperAlpha c = true := by
  simp [validSymbol, List.all_eq_true, and_assoc]

/-- A lowercase ASCII letter is not an uppercase one. -/
theorem lower_not_upperAlpha (c : Char) (h : 'a' ≤ c) : isUpperAlpha c = false := by
  unfold isUpperAlpha
  by_cases h2 : c ≤ 'Z'
  · exact absurd (le_trans h h2) (by decide)
  · simp [h2]

/-- Mapping a function that fixes every element of a list is the identity. -/
theorem map_fixed {α : Type} (f : α → α) :
    ∀ l : List α, (∀ a ∈ l, f a = a) → l.map f = l := by
  intro l
  induction l with
  | nil => intro _; rfl
  | cons a t ih =>
      intro h
      simp only [List.map_cons, h a (by simp)]
      rw [ih (fun c hc => h c (by simp [hc]))]

/-- `pyUpper` fixes a string that passes the uppercase pattern. -/
theorem pyUpper_of_valid (s : String) (hv : validSymbol s = true) : pyUpper s = s := by
  have hall := ((validSymbol_iff s).1 hv).2.2
  have hfix : ∀ c ∈ s.toList, pyUpperChar c = c := by
    intro c hc
    have hcU := hall c hc
    simp only [isUpperAlpha, Bool.and_eq_true, decide_eq_true_eq] at hcU
    unfold pyUpperChar
    rw [if_neg]
    intro hcon
    exact absurd (le_trans hcon.1 hcU.2) (by decide)
  obtain ⟨data⟩ := s
  show String.mk (List.map pyUpperChar data) = String.mk data
  rw [map_fixed pyUpperChar data hfix]

/-- Building the bars dict from a frame with no rows gives the empty dict. -/
theorem toBars_of_no_rows (hist : HistFrame) (h : hist.rows = []) :
    hist.toBars = [] := by
  simp [HistFrame.toBars, h]

/-- The dummy-point substitution for an empty frame. -/
theorem chartData_of_no_rows (hist : HistFrame) (h : hist.rows = []) :
    chartData hist = [dummyPoint] := by
  simp [chartData, h]

/-- The frame used against C2: the backend returns one row with a close
value but with no `Open`, `High`, `Low` or `Volume` cells. -/
def c2Frame : HistFrame :=
  { columns := ["Close"],
    rows := [(⟨2024, 1, 2⟩, fun f => if f = "Close" then some 5 else none)] }

/-! ### Claim theorems -/

/-- C1 (counterexample): the claim says input `aapl` is case-normalized
and dispatched as `AAPL`; in the code the pattern `[A-Z]` is checked by
pydantic before the handler's `symbol.upper()` ever runs, so `aapl`
produces a validation error and is not dispatched — even against a
backend that has data for every ticker. -/
theorem c1_counterexample :
    get_stock_info (fun _ _ => some (Val.num 1)) "aapl" =
      Except.error symbolPatternError := by
  rfl

/-- C1 (amended): an identifier containing a lowercase letter fails
validation and is never dispatched; an identifier passing validation is
dispatched with `symbol.upper()` applied — the handlers consult the
backend only at `pyUpper sym`, which equals the symbol itself. -/
theorem c1_lowercase_rejected_upper_dispatched (sym : String)
    (info info' : String → String → Option Val)
    (backend backend' : String → YfParams → HistFrame)
    (period interval : String) (start end_ : Option String) :
    ((∃ c ∈ sym.toList, 'a' ≤ c ∧ c ≤ 'z') →
      get_stock_info info sym = Except.error symbolPatternError ∧
      get_historical_prices backend sym period interval start end_ =
        Except.error symbolPatternError) ∧
    (validSymbol sym = true →
      pyUpper sym = sym ∧
      ((∀ f, info (pyUpper sym) f = info' (pyUpper sym) f) →
        get_stock_info info sym = get_stock_info info' sym) ∧
      ((∀ p, backend (pyUpper sym) p = backend' (pyUpper sym) p) →
        get_historical_prices backend sym period interval start end_ =
          get_historical_prices backend' sym period interval start end_)) := by
  constructor
  · rintro ⟨c, hc, hac, -⟩
    have hv : validSymbol sym = false := by
      cases h : validSymbol sym
      · rfl
      · have hup := ((validSymbol_iff sym).1 h).2.2 c hc
        rw [lower_not_upperAlpha c hac] at hup
        exact absurd hup (by decide)
    constructor
    · simp [get_stock_info, hv]
    · simp [get_historical_prices, hv]
  · intro hv
    refine ⟨pyUpper_of_valid sym hv, ?_, ?_⟩
    · intro hf
      simp only [get_stock_info, hv, if_true, hf]
    · intro hp
      simp only [get_historical_prices, hv, if_true, hp]

/-- Witness for C1 (amended): `aapl` is rejected by both handlers, and
`AAPL` is its own uppercase normal form. -/
theorem c1_witness :
    (get_stock_info (fun _ _ => none) "aapl" = Except.error symbolPatternError ∧
      get_historical_prices (fun _ _ => emptyFrame) "aapl" "1y" "1d" none none =
        Except.error symbolPatternError) ∧
    pyUpper "AAPL" = "AAPL" :=
  ⟨(c1_lowercase_rejected_upper_dispatched "aapl" (fun _ _ => none) (fun _ _ => none)
      (fun _ _ => emptyFrame) (fun _ _ => emptyFrame) "1y" "1d" none none).1 (by decide),
   ((c1_lowercase_rejected_upper_dispatched "AAPL" (fun _ _ => none) (fun _ _ => none)
      (fun _ _ => emptyFrame) (fun _ _ => emptyFrame) "1y" "1d" none none).2 (by decide)).1⟩

/-- C2 (counterexample): the claim says no handler ever converts a
missing backend field into a fabricated value such as 0; but
`render_stock_chart` maps a history row with no `Open`, `High`, `Low`
or `Volume` cells to the chart point `(0, 0, 0, close, 0)` via
`row.get(field, 0)` — the missing fields become the default `0`. -/
theorem c2_counterexample :
    docData (render_stock_chart (fun _ _ => c2Frame) "AAPL" "line" "1mo" "1d" none none) =
      some [{ date := "2024-01-02", open_ := 0, high := 0, low := 0, close := 5,
              volume := 0 }] := by
  rfl

/-- C2 (amended): `get_stock_info` and `get_historical_prices` map each
backend field verbatim into the corresponding optional result field, so
an absent field is `None` and never a fabricated default; but
`render_stock_chart` substitutes the default `0` for every field absent
from a history row. -/
theorem c2_missing_field_handling (info : String → String → Option Val) (sym : String)
    (hv : validSymbol sym = true) (cols : List String)
    (cells : String → Option ℚ) (d : Dte) :
    (Except.map StockInfo.company_name (get_stock_info info sym) =
        Except.ok (info (pyUpper sym) "longName") ∧
      Except.map StockInfo.current_price (get_stock_info info sym) =
        Except.ok (info (pyUpper sym) "currentPrice") ∧
      Except.map StockInfo.market_cap (get_stock_info info sym) =
        Except.ok (info (pyUpper sym) "marketCap") ∧
      Except.map StockInfo.pe_ratio (get_stock_info info sym) =
        Except.ok (info (pyUpper sym) "trailingPE") ∧
      Except.map StockInfo.dividend_yield (get_stock_info info sym) =
        Except.ok (info (pyUpper sym) "dividendYield") ∧
      Except.map StockInfo.fifty_two_week_high (get_stock_info info sym) =
        Except.ok (info (pyUpper sym) "fiftyTwoWeekHigh") ∧
      Except.map StockInfo.fifty_two_week_low (get_stock_info info sym) =
        Except.ok (info (pyUpper sym) "fiftyTwoWeekLow") ∧
      Except.map StockInfo.sector (get_stock_info info sym) =
        Except.ok (info (pyUpper sym) "sector") ∧
      Except.map StockInfo.industry (get_stock_info info sym) =
        Except.ok (info (pyUpper sym) "industry") ∧
      Except.map StockInfo.volume (get_stock_info info sym) =
        Except.ok (info (pyUpper sym) "volume") ∧
      Except.map StockInfo.avg_volume (get_stock_info info sym) =
        Except.ok (info (pyUpper sym) "averageVolume") ∧
      Except.map StockInfo.beta (get_stock_info info sym) =
        Except.ok (info (pyUpper sym) "beta") ∧
      Except.map StockInfo.book_value (get_stock_info info sym) =
        Except.ok (info (pyUpper sym) "bookValue") ∧
      Except.map StockInfo.eps (get_stock_info info sym) =
        Except.ok (info (pyUpper sym) "trailingEps")) ∧
    ((barOfRow cols cells).open_ = cells "Open" ∧
      (barOfRow cols cells).high = cells "High" ∧
      (barOfRow cols cells).low = cells "Low" ∧
      (barOfRow cols cells).close = cells "Close" ∧
      (barOfRow cols cells).volume = cells "Volume") ∧
    ((chartPointOfRow d cells).open_ = (cells "Open").getD 0 ∧
      (chartPointOfRow d cells).high = (cells "High").getD 0 ∧
      (chartPointOfRow d cells).low = (cells "Low").getD 0 ∧
      (chartPointOfRow d cells).close = (cells "Close").getD 0 ∧
      (chartPointOfRow d cells).volume = pyInt ((cells "Volume").getD 0)) := by
  refine ⟨?_, ?_, ?_⟩
  · simp [get_stock_info, hv, Except.map]
  · simp [barOfRow]
  · simp [chartPointOfRow]

/-- Witness for C2 (amended): a backend with no data gives `None` for
`company_name`, while the chart point fabricates a zero open price. -/
theorem c2_witness :
    Except.map StockInfo.company_name (get_stock_info (fun _ _ => none) "AAPL") =
      Except.ok none ∧
    (chartPointOfRow ⟨2024, 1, 1⟩ (fun _ => none)).open_ = (0 : ℚ) :=
  ⟨(c2_missing_field_handling (fun _ _ => none) "AAPL" (by decide) []
      (fun _ => none) ⟨2024, 1, 1⟩).1.1,
   (c2_missing_field_handling (fun _ _ => none) "AAPL" (by decide) []
      (fun _ => none) ⟨2024, 1, 1⟩).2.2.1⟩

/-- C3 (counterexample): with an empty backend history the rendered
change statistic is `+0.00 (+0.0%)` — the `:+.2f` format specifier
always emits a sign — not the `0.00 (+0.0%)` stated by the claim. -/
theorem c3_counterexample :
    docChange (render_stock_chart (fun _ _ => emptyFrame) "AAPL" "candlestick"
        "1mo" "1d" none none) = some "+0.00 (+0.0%)" ∧
    ("+0.00 (+0.0%)" : String) ≠ "0.00 (+0.0%)" := by
  exact ⟨rfl, by decide⟩

/-- C3 (amended): a `render_stock_chart` call whose backend history has
zero rows embeds exactly the one synthetic data point
`{date: 2024-01-01, open: 100, high: 100, low: 100, close: 100,
volume: 0}` and renders the change statistic `+0.00 (+0.0%)`. -/
theorem c3_empty_series_dummy_point (backend : String → YfParams → HistFrame)
    (sym ct period interval : String) (start end_ : Option String)
    (hv : validSymbol sym = true)
    (hempty : (backend (pyUpper sym) (histParams period interval start end_).1).rows = []) :
    docData (render_stock_chart backend sym ct period interval start end_) =
      some [dummyPoint] ∧
    dummyPoint =
      { date := "2024-01-01", open_ := 100, high := 100, low := 100, close := 100,
        volume := 0 } ∧
    docChange (render_stock_chart backend sym ct period interval start end_) =
      some "+0.00 (+0.0%)" := by
  have hcd := chartData_of_no_rows _ hempty
  refine ⟨?_, rfl, ?_⟩
  · simp only [render_stock_chart, hv, if_true, hcd, docData]
  · simp only [render_stock_chart, hv, if_true, hcd, docChange]
    rfl

/-- Witness for C3 (amended): the empty backend at concrete arguments. -/
theorem c3_witness :
    docData (render_stock_chart (fun _ _ => emptyFrame) "AAPL" "line" "1mo" "1d"
        none none) = some [dummyPoint] :=
  (c3_empty_series_dummy_point (fun _ _ => emptyFrame) "AAPL" "line" "1mo" "1d"
      none none (by decide) rfl).1

/-- C4: for every call to `get_historical_prices` or `render_stock_chart`
that supplies a start or an end date, the request sent to the backend
carries the start/end range and the interval but no period; when neither
bound is supplied it carries the period and the interval. Both handlers
consult the backend exactly at that request (and at the uppercased
symbol), so two backends agreeing there give identical results. -/
theorem c4_date_range_precedence (period interval : String) (start end_ : Option String)
    (sym ct : String) (backend backend' : String → YfParams → HistFrame) :
    (start.isSome = true ∨ end_.isSome = true →
      (histParams period interval start end_).1 =
        { start := start, end_ := end_, period := none, interval := some interval }) ∧
    (start = none → end_ = none →
      (histParams period interval start end_).1 =
        { start := none, end_ := none, period := some period, interval := some interval }) ∧
    (backend (pyUpper sym) (histParams period interval start end_).1 =
        backend' (pyUpper sym) (histParams period interval start end_).1 →
      get_historical_prices backend sym period interval start end_ =
        get_historical_prices backend' sym period interval start end_ ∧
      render_stock_chart backend sym ct period interval start end_ =
        render_stock_chart backend' sym ct period interval start end_) := by
  refine ⟨?_, ?_, ?_⟩
  · rintro (h | h) <;> simp [histParams, h]
  · rintro rfl rfl
    simp [histParams]
  · intro hagree
    by_cases hv : validSymbol sym
    · constructor
      · simp only [get_historical_prices, hv, if_true, hagree]
      · simp only [render_stock_chart, hv, if_true, hagree]
    · constructor
      · simp [get_historical_prices, hv]
      · simp [render_stock_chart, hv]

/-- Witness for C4 at concrete inputs: a supplied start date wins over
the period, absence of both bounds keeps the period, and agreeing
backends give the same history result. -/
theorem c4_witness :
    (histParams "1y" "1h" (some "2024-01-01") none).1 =
      { start := some "2024-01-01", end_ := none, period := none, interval := some "1h" } ∧
    (histParams "1y" "1h" none none).1 =
      { start := none, end_ := none, period := some "1y", interval := some "1h" } ∧
    get_historical_prices (fun _ _ => emptyFrame) "AAPL" "1y" "1h" (some "2024-01-01") none =
      get_historical_prices (fun _ _ => emptyFrame) "AAPL" "1y" "1h" (some "2024-01-01") none :=
  ⟨(c4_date_range_precedence "1y" "1h" (some "2024-01-01") none "AAPL" "line"
      (fun _ _ => emptyFrame) (fun _ _ => emptyFrame)).1 (Or.inl rfl),
   (c4_date_range_precedence "1y" "1h" none none "AAPL" "line"
      (fun _ _ => emptyFrame) (fun _ _ => emptyFrame)).2.1 rfl rfl,
   ((c4_date_range_precedence "1y" "1h" (some "2024-01-01") none "AAPL" "line"
      (fun _ _ => emptyFrame) (fun _ _ => emptyFrame)).2.2 rfl).1⟩

/-- C5: a `get_historical_prices` call whose backend history has zero
rows returns an `ok` result whose `bars` mapping is empty — no error and
no placeholder bars. -/
theorem c5_empty_history_yields_empty_bars
    (backend : String → YfParams → HistFrame) (sym period interval : String)
    (start end_ : Option String) (hv : validSymbol sym = true)
    (hempty : (backend (pyUpper sym) (histParams period interval start end_).1).rows = []) :
    get_historical_prices backend sym period interval start end_ =
      Except.ok
        { symbol := pyUpper sym, resolution := period,
          period := (histParams period interval start end_).2, bars := [] } := by
  simp only [get_historical_prices, hv, if_true]
  rw [toBars_of_no_rows _ hempty]

/-- Witness for C5: the all-empty backend gives `ok` with empty bars. -/
theorem c5_witness :
    get_historical_prices (fun _ _ => emptyFrame) "AAPL" "1y" "1d" none none =
      Except.ok
        { symbol := pyUpper "AAPL", resolution := "1y",
          period := (histParams "1y" "1d" none none).2, bars := [] } :=
  c5_empty_history_yields_empty_bars (fun _ _ => emptyFrame) "AAPL" "1y" "1d"
    none none (by decide) rfl

/-- C6: the bar built from a backend history row carries the row's
`'Adj Close'` value exactly when the frame has an `'Adj Close'` column,
and is `None` whenever the column label differs — never mirrored from
the unadjusted close. -/
theorem c6_adj_close_column_dependent (cols : List String) (cells : String → Option ℚ) :
    ("Adj Close" ∈ cols → (barOfRow cols cells).adj_close = cells "Adj Close") ∧
    (¬ "Adj Close" ∈ cols → (barOfRow cols cells).adj_close = none) := by
  constructor <;> intro h <;> simp [barOfRow, h]

/-- Witness for C6: with the expected column the value is kept; with a
different label (`'adjclose'`) it is dropped even though the row has a
close value that could have been mirrored. -/
theorem c6_witness :
    (barOfRow ["Close", "Adj Close"] (fun _ => some 7)).adj_close = some 7 ∧
    (barOfRow ["Close", "adjclose"] (fun _ => some 7)).adj_close = none :=
  ⟨(c6_adj_close_column_dependent ["Close", "Adj Close"] (fun _ => some 7)).1 (by decide),
   (c6_adj_close_column_dependent ["Close", "adjclose"] (fun _ => some 7)).2 (by decide)⟩

/-- C7: the `/.well-known/wingman` endpoint always answers with name
`wingman`; an absent or unreadable instructions file (or one whose
stripped content is empty) silently omits the `instructions` field, and
a readable file with nonempty stripped content yields that stripped
content — no error in any case. -/
theorem c7_wingman_discovery (fs : FileState) :
    (wingman_endpoint fs).name = "wingman" ∧
    (fs = FileState.absent ∨ fs = FileState.unreadable →
      (wingman_endpoint fs).instructions = none) ∧
    (∀ c, fs = FileState.readable c →
      (wingman_endpoint fs).instructions =
        if pyStrip c = "" then none else some (pyStrip c)) := by
  refine ⟨?_, ?_, ?_⟩
  · cases fs <;> simp only [wingman_endpoint]
    split <;> rfl
  · rintro (rfl | rfl)
    · rfl
    · rfl
  · rintro c rfl
    simp only [wingman_endpoint]
    split <;> simp_all

/-- Witness for C7: a readable file with surrounding whitespace, and an
absent file. -/
theorem c7_witness :
    (wingman_endpoint (FileState.readable "  docs  ")).instructions =
      (if pyStrip "  docs  " = "" then none else some (pyStrip "  docs  ")) ∧
    (wingman_endpoint FileState.absent).instructions = none :=
  ⟨(c7_wingman_discovery (FileState.readable "  docs  ")).2.2 "  docs  " rfl,
   (c7_wingman_discovery FileState.absent).2.1 (Or.inl rfl)⟩

/-- C8: a symbol that is not 1-10 uppercase letters makes every tool
fail with the validation error — uniformly in the backend arguments, so
no backend fetch can have been attempted — and every symbol matching
the pattern passes validation (for `get_factsheet`, whose download may
still fail upstream, passing means no validation error). -/
theorem c8_symbol_pattern_validation (sym : String)
    (info : String → String → Option Val)
    (backend backend2 : String → YfParams → HistFrame)
    (download : String → Except String (List Nat))
    (ct period interval : String) (start end_ : Option String) :
    (¬(1 ≤ sym.length ∧ sym.length ≤ 10 ∧ ∀ c ∈ sym.toList, isUpperAlpha c = true) →
      get_stock_info info sym = Except.error symbolPatternError ∧
      get_historical_prices backend sym period interval start end_ =
        Except.error symbolPatternError ∧
      render_stock_chart backend2 sym ct period interval start end_ =
        Except.error symbolPatternError ∧
      get_factsheet download sym = Except.error symbolPatternError) ∧
    ((1 ≤ sym.length ∧ sym.length ≤ 10 ∧ ∀ c ∈ sym.toList, isUpperAlpha c = true) →
      (∃ r, get_stock_info info sym = Except.ok r) ∧
      (∃ r, get_historical_prices backend sym period interval start end_ = Except.ok r) ∧
      (∃ r, render_stock_chart backend2 sym ct period interval start end_ = Except.ok r) ∧
      get_factsheet download sym ≠ Except.error symbolPatternError) := by
  constructor
  · intro h
    have hv : validSymbol sym = false := by
      cases hvs : validSymbol sym
      · rfl
      · exact absurd ((validSymbol_iff sym).1 hvs) h
    refine ⟨?_, ?_, ?_, ?_⟩
    · simp [get_stock_info, hv]
    · simp [get_historical_prices, hv]
    · simp [render_stock_chart, hv]
    · simp [get_factsheet, hv]
  · intro h
    have hv : validSymbol sym = true := (validSymbol_iff sym).2 h
    refine ⟨?_, ?_, ?_, ?_⟩
    · cases hres : get_stock_info info sym with
      | ok r => exact ⟨r, rfl⟩
      | error e => simp [get_stock_info, hv] at hres
    · cases hres : get_historical_prices backend sym period interval start end_ with
      | ok r => exact ⟨r, rfl⟩
      | error e => simp [get_historical_prices, hv] at hres
    · cases hres : render_stock_chart backend2 sym ct period interval start end_ with
      | ok r => exact ⟨r, rfl⟩
      | error e => simp [render_stock_chart, hv] at hres
    · simp only [get_factsheet, hv, if_true]
      cases hdl : download pdf_url <;> simp [symbolPatternError]

/-- Witness for C8: `A1` (a digit) is rejected before any fetch, and
`AAPL` passes validation. -/
theorem c8_witness :
    get_stock_info (fun _ _ => none) "A1" = Except.error symbolPatternError ∧
    (∃ r, get_stock_info (fun _ _ => none) "AAPL" = Except.ok r) :=
  ⟨((c8_symbol_pattern_validation "A1" (fun _ _ => none) (fun _ _ => emptyFrame)
      (fun _ _ => emptyFrame) (fun _ => Except.ok []) "line" "1mo" "1d" none none).1
      (by decide)).1,
   ((c8_symbol_pattern_validation "AAPL" (fun _ _ => none) (fun _ _ => emptyFrame)
      (fun _ _ => emptyFrame) (fun _ => Except.ok []) "line" "1mo" "1d" none none).2
      (by decide)).1⟩

/-- C9: `get_factsheet` downloads only the fixed `pdf_url` regardless of
the symbol (agreeing there, two clients give identical results); on a
successful download the result is the base64 blob of those bytes with
the symbol appearing only in the response URI; and for the same client
two valid symbols produce identical blob content. -/
theorem c9_factsheet_fixed_url (download download' : String → Except String (List Nat))
    (s1 s2 : String) (h1 : validSymbol s1 = true) (h2 : validSymbol s2 = true) :
    (download pdf_url = download' pdf_url →
      get_factsheet download s1 = get_factsheet download' s1) ∧
    (∀ bytes, download pdf_url = Except.ok bytes →
      get_factsheet download s1 =
        Except.ok
          { uri := "ui://data/factsheets/" ++ s1 ++ ".pdf",
            mimeType := "application/pdf", blob := base64Encode bytes }) ∧
    Except.map BlobRes.blob (get_factsheet download s1) =
      Except.map BlobRes.blob (get_factsheet download s2) := by
  refine ⟨?_, ?_, ?_⟩
  · intro hagree
    simp only [get_factsheet, h1, if_true, hagree]
  · intro bytes hok
    simp [get_factsheet, h1, hok]
  · simp only [get_factsheet, h1, h2, if_true]
    cases download pdf_url <;> rfl

/-- Witness for C9: a concrete three-byte download for `AAPL` and
`TSLA`. -/
theorem c9_witness :
    get_factsheet (fun _ => Except.ok [1, 2, 3]) "AAPL" =
      Except.ok
        { uri := "ui://data/factsheets/" ++ "AAPL" ++ ".pdf",
          mimeType := "application/pdf", blob := base64Encode [1, 2, 3] } ∧
    Except.map BlobRes.blob (get_factsheet (fun _ => Except.ok [1, 2, 3]) "AAPL") =
      Except.map BlobRes.blob (get_factsheet (fun _ => Except.ok [1, 2, 3]) "TSLA") :=
  ⟨(c9_factsheet_fixed_url (fun _ => Except.ok [1, 2, 3]) (fun _ => Except.ok [1, 2, 3])
      "AAPL" "TSLA" (by decide) (by decide)).2.1 [1, 2, 3] rfl,
   (c9_factsheet_fixed_url (fun _ => Except.ok [1, 2, 3]) (fun _ => Except.ok [1, 2, 3])
      "AAPL" "TSLA" (by decide) (by decide)).2.2⟩

/-- C10: when a `get_historical_prices` call supplies a start or an end
date, the result's `resolution` field still reports the `period`
argument while its `period` field holds the interpolated literal
`start=..., end=...` (a missing bound interpolating as `None`); with
neither bound supplied, both fields report the `period` argument. -/
theorem c10_resolution_and_period_report (backend : String → YfParams → HistFrame)
    (sym period interval : String) (start end_ : Option String)
    (hv : validSymbol sym = true) :
    (start.isSome = true ∨ end_.isSome = true →
      Except.map HistoricalPrices.resolution
          (get_historical_prices backend sym period interval start end_) =
        Except.ok period ∧
      Except.map HistoricalPrices.period
          (get_historical_prices backend sym period interval start end_) =
        Except.ok ("start=" ++ strOfOpt start ++ ", end=" ++ strOfOpt end_)) ∧
    (start = none → end_ = none →
      Except.map HistoricalPrices.resolution
          (get_historical_prices backend sym period interval start end_) =
        Except.ok period ∧
      Except.map HistoricalPrices.period
          (get_historical_prices backend sym period interval start end_) =
        Except.ok period) := by
  constructor
  · rintro (h | h) <;> constructor <;>
      simp [get_historical_prices, hv, histParams, h, Except.map]
  · rintro rfl rfl
    constructor <;> simp [get_historical_prices, hv, histParams, Except.map]

/-- Witness for C10: both bounds supplied at concrete arguments. -/
theorem c10_witness :
    Except.map HistoricalPrices.resolution
        (get_historical_prices (fun _ _ => emptyFrame) "AAPL" "1y" "1d"
          (some "2024-01-01") (some "2024-02-01")) = Except.ok "1y" ∧
    Except.map HistoricalPrices.period
        (get_historical_prices (fun _ _ => emptyFrame) "AAPL" "1y" "1d"
          (some "2024-01-01") (some "2024-02-01")) =
      Except.ok ("start=" ++ strOfOpt (some "2024-01-01") ++ ", end=" ++
        strOfOpt (some "2024-02-01")) :=
  (c10_resolution_and_period_report (fun _ _ => emptyFrame) "AAPL" "1y" "1d"
      (some "2024-01-01") (some "2024-02-01") (by decide)).1 (Or.inl rfl)

end Wingman

